import Mathlib

/-!
Verification of the pytorch alerting-infra core: shallow embedding of the
collector fingerprint generator, the Grafana and pass-through (normalized)
transformers, the SQS handler orchestration, the lifecycle decision engine,
the multi-team field parser and the external-alerts webhook, together with
theorems settling the behavioural claims about them.

Machine integers are modelled as `Nat` with explicit `% 2^32` where the
source's 32-bit arithmetic overflows (SHA-256).  JavaScript strings are
`String`, absent/`undefined` fields are `Option`, JS truthiness of strings
(`undefined` and `""` are falsy) is modelled explicitly.
-/

namespace Alerting

/-! ## JavaScript string semantics helpers -/

/-- JS truthiness of an optional string: `undefined` and `""` are falsy. -/
def truthy : Option String → Bool
  | none => false
  | some s => !(s == "")

/-- JS `a || b` on optional string values: `b` wins when `a` is absent or empty. -/
def jsOr (a b : Option String) : Option String :=
  if truthy a then a else b

/-- Left fold of `jsOr` over a candidate list, as in chained `a || b || c`. -/
def jsOrs (l : List (Option String)) : Option String :=
  l.foldr (fun a acc => jsOr a acc) none

/-- The whitespace characters stripped by JS `String.prototype.trim`
(ASCII whitespace and the no-break space). -/
def isJsWs (c : Char) : Bool :=
  c == ' ' || c == '\t' || c == '\n' || c == '\r' || c == '\x0b' || c == '\x0c' || c == ' '

/-- JS `s.trim()`: drop leading and trailing whitespace. -/
def jsTrim (s : String) : String :=
  String.mk (((s.toList.dropWhile isJsWs).reverse.dropWhile isJsWs).reverse)

/-- Lower-case an ASCII letter (JS `toLowerCase` on the ASCII fragment
used by this system). -/
def lowerChar (c : Char) : Char :=
  if 65 ≤ c.toNat ∧ c.toNat ≤ 90 then Char.ofNat (c.toNat + 32) else c

/-- JS `s.toLowerCase()` on the ASCII fragment used by this system. -/
def asciiLower (s : String) : String :=
  String.mk (s.toList.map lowerChar)

/-- JS `a < b` on strings: lexicographic comparison by code unit. -/
def strLtB : List Char → List Char → Bool
  | [], [] => false
  | [], _ :: _ => true
  | _ :: _, [] => false
  | a :: as, b :: bs =>
    if a.toNat < b.toNat then true
    else if b.toNat < a.toNat then false
    else strLtB as bs

/-- JS `a < b` on strings. -/
def jsStrLt (a b : String) : Bool := strLtB a.toList b.toList

/-- JS `array.join(sep)`. -/
def joinSep (sep : String) : List String → String
  | [] => ""
  | [x] => x
  | x :: y :: xs => x ++ sep ++ joinSep sep (y :: xs)

/-- Substring test: `needle` occurs contiguously in `hay`. -/
def strContains (hay needle : String) : Bool :=
  (List.range (hay.toList.length + 1)).any
    (fun i => needle.toList.isPrefixOf (hay.toList.drop i))

/-! ## SHA-256 (the `crypto` `createHash("sha256")` digest used by the source),
implemented over byte lists with `Nat` arithmetic mod `2^32`. -/

/-- Reduce to a 32-bit word. -/
def w32 (x : Nat) : Nat := x % 4294967296

/-- 32-bit rotate right. -/
def rotr32 (n x : Nat) : Nat := w32 ((x >>> n) ||| (x <<< (32 - n)))

def sha256K : List Nat :=
  [1116352408, 1899447441, 3049323471, 3921009573, 961987163,
   1508970993, 2453635748, 2870763221, 3624381080, 310598401,
   607225278, 1426881987, 1925078388, 2162078206, 2614888103,
   3248222580, 3835390401, 4022224774, 264347078, 604807628,
   770255983, 1249150122, 1555081692, 1996064986, 2554220882,
   2821834349, 2952996808, 3210313671, 3336571891, 3584528711,
   113926993, 338241895, 666307205, 773529912, 1294757372,
   1396182291, 1695183700, 1986661051, 2177026350, 2456956037,
   2730485921, 2820302411, 3259730800, 3345764771, 3516065817,
   3600352804, 4094571909, 275423344, 430227734, 506948616,
   659060556, 883997877, 958139571, 1322822218, 1537002063,
   1747873779, 1955562222, 2024104815, 2227730452, 2361852424,
   2428436474, 2756734187, 3204031479, 3329325298]

def sha256H0 : List Nat :=
  [1779033703, 3144134277, 1013904242, 2773480762, 1359893119,
   2600822924, 528734635, 1541459225]

def bigS0 (x : Nat) : Nat := (rotr32 2 x) ^^^ (rotr32 13 x) ^^^ (rotr32 22 x)
def bigS1 (x : Nat) : Nat := (rotr32 6 x) ^^^ (rotr32 11 x) ^^^ (rotr32 25 x)
def smlS0 (x : Nat) : Nat := (rotr32 7 x) ^^^ (rotr32 18 x) ^^^ (x >>> 3)
def smlS1 (x : Nat) : Nat := (rotr32 17 x) ^^^ (rotr32 19 x) ^^^ (x >>> 10)

/-- SHA-256 padding: append `0x80`, zero bytes to 56 mod 64, and the
64-bit big-endian bit length. -/
def sha256pad (msg : List Nat) : List Nat :=
  let len := msg.length
  let zeros := (64 + 56 - ((len + 1) % 64)) % 64
  let bl := len * 8
  msg ++ [0x80] ++ List.replicate zeros 0 ++
    [(bl >>> 56) % 256, (bl >>> 48) % 256, (bl >>> 40) % 256, (bl >>> 32) % 256,
     (bl >>> 24) % 256, (bl >>> 16) % 256, (bl >>> 8) % 256, bl % 256]

/-- Big-endian 4-byte groups to 32-bit words. -/
def bytesToWords : List Nat → List Nat
  | a :: b :: c :: d :: rest => (a * 16777216 + b * 65536 + c * 256 + d) :: bytesToWords rest
  | _ => []

/-- Message-schedule extension from 16 to 64 words. -/
def sha256Extend (w16 : List Nat) : List Nat :=
  (List.range 48).foldl
    (fun w i =>
      let j := i + 16
      w ++ [w32 (w.getD (j - 16) 0 + smlS0 (w.getD (j - 15) 0) +
                 w.getD (j - 7) 0 + smlS1 (w.getD (j - 2) 0))])
    w16

/-- One SHA-256 compression round over a 64-byte chunk. -/
def sha256Compress (h : List Nat) (chunk : List Nat) : List Nat :=
  let w := sha256Extend (bytesToWords chunk)
  let final := (List.range 64).foldl
    (fun st i =>
      match st with
      | [a, b, c, d, e, f, g, hh] =>
        let ch := (e &&& f) ^^^ ((e ^^^ 4294967295) &&& g)
        let maj := (a &&& b) ^^^ (a &&& c) ^^^ (b &&& c)
        let t1 := w32 (hh + bigS1 e + ch + sha256K.getD i 0 + w.getD i 0)
        let t2 := w32 (bigS0 a + maj)
        [w32 (t1 + t2), a, b, c, w32 (d + t1), e, f, g]
      | other => other)
    h
  List.zipWith (fun x y => w32 (x + y)) h final

/-- Split into successive 64-byte chunks. -/
def chunks64 (l : List Nat) : List (List Nat) :=
  if h : l = [] then [] else l.take 64 :: chunks64 (l.drop 64)
termination_by l.length
decreasing_by
  simp only [List.length_drop]
  have : 0 < l.length := List.length_pos.mpr h
  omega

/-- SHA-256 digest of a byte list, as 32 bytes. -/
def sha256Bytes (msg : List Nat) : List Nat :=
  let hs := (chunks64 (sha256pad msg)).foldl sha256Compress sha256H0
  hs.foldr (fun wd acc =>
    (wd >>> 24) % 256 :: (wd >>> 16) % 256 :: (wd >>> 8) % 256 :: wd % 256 :: acc) []

/-- UTF-8 bytes of a string (the `"utf8"` encoding named in the source). -/
def strBytes (s : String) : List Nat :=
  s.toUTF8.toList.map (fun b => b.toNat)

def hexChar (d : Nat) : Char := if d < 10 then Char.ofNat (48 + d) else Char.ofNat (87 + d)

def byteHex (b : Nat) : String := String.mk [hexChar (b / 16), hexChar (b % 16)]

/-- Lower-case hex rendering of a byte list. -/
def bytesToHex (bs : List Nat) : String := String.join (bs.map byteHex)

/-- `createHash("sha256").update(s, "utf8").digest("hex")`. -/
def sha256Hex (s : String) : String := bytesToHex (sha256Bytes (strBytes s))

/-! ## Data model (`types.ts` shapes as used by the sources and tests) -/

/-- Incoming event state of the canonical `AlertEvent`. -/
inductive EventState
  | FIRING
  | RESOLVED
deriving DecidableEq, Repr

/-- The four-valued required priority. -/
inductive Priority
  | P0
  | P1
  | P2
  | P3
deriving DecidableEq, Repr

/-- Provider-scoped identity disambiguators; every sub-field is optional. -/
structure AlertIdentity where
  account_id : Option String := none
  region : Option String := none
  alarm_id : Option String := none
  alarm_arn : Option String := none
  rule_id : Option String := none
  org_id : Option String := none
deriving DecidableEq, Repr

/-- Optional navigation links carried by an `AlertEvent`. -/
structure AlertLinks where
  runbook_url : Option String := none
  dashboard_url : Option String := none
  source_url : Option String := none
  silence_url : Option String := none
deriving DecidableEq, Repr

/-- The canonical `AlertEvent` produced by transformers. -/
structure AlertEvent where
  schema_version : Nat
  source : String
  state : EventState
  title : String
  description : Option String := none
  summary : Option String := none
  reason : Option String := none
  priority : Priority
  occurred_at : String
  team : String
  identity : AlertIdentity
  links : AlertLinks
deriving DecidableEq, Repr

/-- Ingest metadata created once per inbound message. -/
structure Envelope where
  received_at : String
  ingest_topic : String
  ingest_region : String
  delivery_attempt : Nat
  event_id : String
deriving DecidableEq, Repr

/-! ## Fingerprint generator (`src/lambdas/collector/src/fingerprint.ts`) -/

/-- `normalizeTitle` of `fingerprint.ts`: `title.trim().toLowerCase()`. -/
def normalizeTitleFp (title : String) : String :=
  asciiLower (jsTrim title)

/-- `sortAndHashObject`: sort the keys lexicographically, join as
`key=value` pairs with `"|"`, and hash the canonical string with SHA-256. -/
def sortAndHashObject (pairs : List (String × String)) : String :=
  let sorted := pairs.mergeSort (fun a b => a.1 ≤ b.1)
  let canonicalString := joinSep "|" (sorted.map (fun p => p.1 ++ "=" ++ p.2))
  sha256Hex canonicalString

/-- The fingerprint input mapping of `generateFingerprint`: `source`, the
normalized title, and each identity sub-field that is present (JS-truthy). -/
def fingerprintInputs (alertEvent : AlertEvent) : List (String × String) :=
  [("source", alertEvent.source), ("title", normalizeTitleFp alertEvent.title)] ++
  (if truthy alertEvent.identity.account_id
    then [("account_id", alertEvent.identity.account_id.getD "")] else []) ++
  (if truthy alertEvent.identity.region
    then [("region", alertEvent.identity.region.getD "")] else []) ++
  (if truthy alertEvent.identity.alarm_id
    then [("alarm_id", alertEvent.identity.alarm_id.getD "")] else [])

/-- `generateFingerprint` of `fingerprint.ts`. -/
def generateFingerprint (alertEvent : AlertEvent) : String :=
  sortAndHashObject (fingerprintInputs alertEvent)

/-! ## Lifecycle decision engine -/

/-- Persisted issue status of an `AlertState` record. -/
inductive IssueStatus
  | OPEN
  | CLOSED
deriving DecidableEq, Repr

/-- The persisted per-fingerprint state mutated by the decision engine. -/
structure AlertStateRec where
  status : IssueStatus
  manually_closed : Bool
  last_provider_state_at : String
  issue_number : Option Nat := none
deriving DecidableEq, Repr

/-- The single action the decision engine produces for one event. -/
inductive LifecycleAction
  | CREATE
  | COMMENT
  | CLOSE
  | SKIP_STALE
  | SKIP_MANUAL_CLOSE
  | SKIP
deriving DecidableEq, Repr

/-- Modelled from the spec: the lifecycle decision engine of §4.4 (its
implementation, the collector processor module, is not among the sources).
Combines the prior persisted state and the incoming event into exactly one
action plus the state to persist; timestamps are ISO-8601 UTC strings, so
the out-of-order guard is their lexicographic comparison. -/
def decideLifecycle (prior : Option AlertStateRec) (ev : AlertEvent) :
    LifecycleAction × Option AlertStateRec :=
  match prior with
  | none =>
    match ev.state with
    | .FIRING => (.CREATE, some ⟨.OPEN, false, ev.occurred_at, none⟩)
    | .RESOLVED => (.SKIP, none)
  | some st =>
    if st.status = .OPEN ∧ st.manually_closed = false then
      if jsStrLt ev.occurred_at st.last_provider_state_at then
        (.SKIP_STALE, some st)
      else
        match ev.state with
        | .FIRING => (.COMMENT, some { st with last_provider_state_at := ev.occurred_at })
        | .RESOLVED =>
          (.CLOSE, some { st with status := .CLOSED, last_provider_state_at := ev.occurred_at })
    else if st.status = .OPEN then
      (.SKIP_MANUAL_CLOSE, some st)
    else
      match ev.state with
      | .FIRING => (.CREATE, some ⟨.OPEN, false, ev.occurred_at, none⟩)
      | .RESOLVED => (.SKIP, some st)

end Alerting

namespace Alerting

/-! ## Multi-team field parsing -/

/-- Decidable equality for `Except`, used to evaluate parser results on
concrete inputs. -/
instance {ε α : Type} [DecidableEq ε] [DecidableEq α] : DecidableEq (Except ε α) :=
  fun x y =>
    match x, y with
    | .ok a, .ok b =>
      if h : a = b then .isTrue (h ▸ rfl) else .isFalse (fun hh => h (Except.ok.inj hh))
    | .error a, .error b =>
      if h : a = b then .isTrue (h ▸ rfl) else .isFalse (fun hh => h (Except.error.inj hh))
    | .ok _, .error _ => .isFalse (fun hh => Except.noConfusion hh)
    | .error _, .ok _ => .isFalse (fun hh => Except.noConfusion hh)

/-- Split a character list at every occurrence of `c` (JS `s.split(",")`). -/
def splitChar (c : Char) : List Char → List (List Char)
  | [] => [[]]
  | x :: xs =>
    let r := splitChar c xs
    if x == c then [] :: r
    else
      match r with
      | [] => [[x]]
      | y :: ys => (x :: y) :: ys

/-- JS `s.split(",")`. -/
def splitCommas (s : String) : List String :=
  (splitChar ',' s.toList).map String.mk

/-- Modelled from the spec (§4.1) and the multi-team tests (the
BaseTransformer team helpers are not among the sources): one team entry is
trimmed, internal whitespace replaced by hyphens, and lower-cased. -/
def normalizeTeamName (s : String) : String :=
  asciiLower (String.mk ((jsTrim s).toList.map (fun c => if isJsWs c then '-' else c)))

/-- The entries surviving normalization: empty-after-trim entries dropped. -/
def teamsOf (raw : String) : List String :=
  ((splitCommas raw).map normalizeTeamName).filter (fun t => t ≠ "")

/-- Modelled from the spec (§4.1) and the multi-team tests: parse a
comma-delimited teams field; zero surviving entries, more than 10
entries, or an entry over 50 characters fail with the validation error
messages asserted by the tests. -/
def parseTeams (raw : String) : Except String (List String) :=
  if (teamsOf raw).isEmpty then
    .error "No valid team names found after parsing comma-delimited list"
  else if (teamsOf raw).length > 10 then
    .error ("Too many teams specified (max 10, got " ++ toString (teamsOf raw).length ++ ")")
  else if (teamsOf raw).any (fun t => 50 < t.length) then
    .error "Team name too long (max 50 characters)"
  else
    .ok (teamsOf raw)

/-- Modelled from the spec (§4.1): the plural field (`Teams`) takes
precedence over the legacy singular field (`Team`) under JS `||`
selection. -/
def selectTeamsField (plural singular : Option String) : Option String :=
  jsOr plural singular

/-! ## Grafana transformer (`GrafanaTransformer` of the sources, the
variant with the `valueString` mini-language parser)

The transformer throws plain `Error`s; errors are modelled as a
`TransformError` carrying the message together with the kind of error
value thrown, so that the claimed distinguished-`ValidationError`
property is observable. -/

/-- The kind of error value a code path throws: the sources construct
only plain `new Error(...)` values (no `ValidationError` class exists in
the sources); the spec's distinguished type would be `validationKind`. -/
inductive ThrownKind
  | genericError
  | validationKind
deriving DecidableEq, Repr

/-- An error thrown by a transformer: its JS class kind and its message. -/
structure TransformError where
  kind : ThrownKind
  message : String
deriving DecidableEq, Repr

/-- Grafana label set (only the keys the transformer reads). -/
structure GrafLabels where
  rulename : Option String := none
  alertname : Option String := none
  priority : Option String := none
  team : Option String := none
  runbook_url : Option String := none
deriving DecidableEq, Repr

/-- Grafana annotation set (only the keys the transformer reads; JS keys
are case-sensitive, so `Priority`/`priority` and `Team`/`TEAM`/`team` are
distinct). -/
structure GrafAnns where
  Priority : Option String := none
  priority : Option String := none
  Team : Option String := none
  TEAM : Option String := none
  team : Option String := none
  description : Option String := none
  summary : Option String := none
  runbook_url : Option String := none
deriving DecidableEq, Repr

/-- One element of the Grafana `alerts` array. -/
structure GrafAlert where
  labels : Option GrafLabels := none
  anns : Option GrafAnns := none
  status : Option String := none
  fingerprint : Option String := none
  dashboardURL : Option String := none
  panelURL : Option String := none
  generatorURL : Option String := none
  silenceURL : Option String := none
  startsAt : Option String := none
  endsAt : Option String := none
  valueString : Option String := none
deriving DecidableEq, Repr

/-- A Grafana webhook payload (the fields the transformer reads). -/
structure GrafanaPayload where
  alerts : List GrafAlert := []
  commonLabels : Option GrafLabels := none
  commonAnns : Option GrafAnns := none
  groupLabels : Option GrafLabels := none
  status : Option String := none
  state : Option String := none
  title : Option String := none
  priority : Option String := none
  team : Option String := none
  orgId : Option String := none
  rule_id : Option String := none
  generatorURL : Option String := none
  startsAt : Option String := none
  endsAt : Option String := none
deriving DecidableEq, Repr

/-- `rawPayload.alerts?.[0] || rawPayload`: the first alert, or the
payload itself viewed through its top-level alert-shaped fields. -/
def effAlert (p : GrafanaPayload) : GrafAlert :=
  p.alerts.head?.getD
    { status := p.status, generatorURL := p.generatorURL,
      startsAt := p.startsAt, endsAt := p.endsAt }

/-- `alert.labels || rawPayload.commonLabels || {}` (objects are truthy
even when empty, so plain `orElse` is the faithful model). -/
def labelsOf (p : GrafanaPayload) : GrafLabels :=
  ((effAlert p).labels.orElse (fun _ => p.commonLabels)).getD {}

/-- `alert.annotations || rawPayload.commonAnnotations || {}`. -/
def annsOf (p : GrafanaPayload) : GrafAnns :=
  ((effAlert p).anns.orElse (fun _ => p.commonAnns)).getD {}

/-- Modelled from the spec: `BaseTransformer.normalizeTitle` is not among
the sources; per the data model (§3) the title is trimmed with original
case kept for display. -/
def baseNormalizeTitle (t : String) : String := jsTrim t

/-- Modelled from the spec: `BaseTransformer.validateUrl` is not among
the sources; per §4.1 a URL is valid iff it has scheme http/https and is
length-bounded (the schema README bounds URLs at 2048 characters);
invalid URLs yield `none` (dropped). -/
def validateUrl (s : String) : Option String :=
  if ("http://".toList.isPrefixOf s.toList || "https://".toList.isPrefixOf s.toList)
      && s.length ≤ 2048 then
    some s
  else none

/-- Modelled from the spec: `BaseTransformer.parseTimestamp` is not among
the sources; it parses the provider's ISO-8601 UTC timestamp, modelled as
passing the timestamp string through. -/
def parseTimestamp (s : String) : String := s

/-- Modelled from the spec: `BaseTransformer.sanitizeString` is not among
the sources; per §3 bounded-length strings are truncated on input. -/
def sanitizeString (s : String) (maxLen : Nat) : String :=
  String.mk (s.toList.take maxLen)

/-- Modelled from the spec: `BaseTransformer.extractPriority` is not among
the sources; per §3 priority is the required four-valued enum and a
transformer must fail rather than guess. -/
def extractPriority (v : String) : Except TransformError Priority :=
  match asciiLower (jsTrim v) with
  | "p0" => .ok .P0
  | "p1" => .ok .P1
  | "p2" => .ok .P2
  | "p3" => .ok .P3
  | _ => .error ⟨.genericError, "Invalid priority value: " ++ v⟩

/-- Modelled from the spec: `BaseTransformer.extractTeam` is not among
the sources; per §3 a team slug is lower-cased with spaces replaced by
hyphens. -/
def extractTeam (v : String) : String := normalizeTeamName v

/-- The synthetic envelope the transformer builds for title/state error
contexts: its `event_id` is `""`, so those contexts carry no messageId
(only `event_id` is read from it). -/
def debugEnvelope : Envelope := ⟨"", "", "", 1, ""⟩

/-- `extractDebugContext` (verbatim structure): source, messageId when
the envelope has one, best-effort alert title, orgId, team and generator
URL, bracketed and comma-joined. -/
def extractDebugContext (p : GrafanaPayload) (env : Envelope) : String :=
  let a0 := p.alerts.head?
  let alertTitle :=
    (jsOrs [a0.bind (fun a => a.labels.bind (fun l => l.rulename)),
            a0.bind (fun a => a.labels.bind (fun l => l.alertname)),
            p.groupLabels.bind (fun l => l.alertname),
            p.commonLabels.bind (fun l => l.alertname)]).getD "unknown"
  let team :=
    jsOrs [a0.bind (fun a => a.anns.bind (fun x => x.Team)),
           a0.bind (fun a => a.anns.bind (fun x => x.TEAM)),
           a0.bind (fun a => a.anns.bind (fun x => x.team)),
           a0.bind (fun a => a.labels.bind (fun l => l.team)),
           p.commonAnns.bind (fun x => x.Team),
           p.commonAnns.bind (fun x => x.TEAM),
           p.commonLabels.bind (fun l => l.team)]
  let genUrl := jsOrs [a0.bind (fun a => a.generatorURL), p.generatorURL]
  let ctx :=
    ["source=grafana"] ++
    (if truthy (some env.event_id) then ["messageId=" ++ env.event_id] else []) ++
    ["alertTitle=\"" ++ alertTitle ++ "\""] ++
    (if truthy p.orgId then ["orgId=" ++ p.orgId.getD ""] else []) ++
    (if truthy team then ["team=\"" ++ team.getD "" ++ "\""] else []) ++
    (if truthy genUrl then ["generatorURL=\"" ++ genUrl.getD "" ++ "\""] else [])
  "[" ++ joinSep ", " ctx ++ "]"

/-- `extractTitle`: first truthy candidate, rulename preferred over
alertname, normalized; otherwise the missing-title error. -/
def extractTitle (p : GrafanaPayload) (alert : GrafAlert) (labels : GrafLabels) :
    Except TransformError String :=
  match jsOrs [labels.rulename, alert.labels.bind (fun l => l.rulename),
      labels.alertname, alert.labels.bind (fun l => l.alertname),
      p.groupLabels.bind (fun l => l.alertname), p.title] with
  | some t => .ok (baseNormalizeTitle t)
  | none =>
    .error ⟨.genericError,
      "Missing required field \"rulename\" or \"alertname\" in Grafana alert labels. This indicates corrupted data from Grafana. " ++
        extractDebugContext p debugEnvelope⟩

/-- The state-error message, with `String(status)` interpolated. -/
def stateErrMsg (s : String) (p : GrafanaPayload) : String :=
  "Unable to determine alert state. Received status: \x27" ++ s ++
    "\x27. Expected \x27firing\x27 or \x27resolved\x27. This indicates corrupted data from Grafana. " ++
    extractDebugContext p debugEnvelope

/-- `alert.status || rawPayload.status || rawPayload.state` (the raw JS
chain: a trailing empty string is returned as such). -/
def statusCand (p : GrafanaPayload) : Option String :=
  jsOr (effAlert p).status (jsOr p.status p.state)

/-- `extractState`: map `firing|alerting` to FIRING and `resolved|ok` to
RESOLVED (case-insensitively); anything else is the state error. -/
def extractState (p : GrafanaPayload) : Except TransformError EventState :=
  match statusCand p with
  | some s =>
    if asciiLower s == "firing" || asciiLower s == "alerting" then .ok .FIRING
    else if asciiLower s == "resolved" || asciiLower s == "ok" then .ok .RESOLVED
    else .error ⟨.genericError, stateErrMsg s p⟩
  | none => .error ⟨.genericError, stateErrMsg "undefined" p⟩

/-- The Go zero-time sentinel skipped by `extractOccurredAt`. -/
def goZeroTime : String := "0001-01-01T00:00:00Z"

/-- First candidate that is truthy and not the sentinel. -/
def firstOccCand : List (Option String) → Option String
  | [] => none
  | o :: rest =>
    match o with
    | some c => if c ≠ "" ∧ c ≠ goZeroTime then some c else firstOccCand rest
    | none => firstOccCand rest

/-- `extractOccurredAt`: the first present, non-sentinel timestamp among
alert/top-level startsAt/endsAt, parsed; otherwise the current time. -/
def extractOccurredAt (alert : GrafAlert) (p : GrafanaPayload) (now : String) : String :=
  match firstOccCand [alert.startsAt, alert.endsAt, p.startsAt, p.endsAt] with
  | some c => parseTimestamp c
  | none => now

/-- Drop an expected literal prefix, or fail. -/
def dropPrefixQ (pre l : List Char) : Option (List Char) :=
  if pre.isPrefixOf l then some (l.drop pre.length) else none

/-- One match of the `valueString` mini-language at the current position:
`[ var=NAME ( labels={L} )? value=V ]` with the regex's token classes
(`NAME` excludes commas and whitespace, `V` also excludes `]`). -/
def parseVSOne (l : List Char) : Option ((String × String × String) × List Char) :=
  match l with
  | '[' :: r0 =>
    let r1 := r0.dropWhile isJsWs
    match dropPrefixQ "var=".toList r1 with
    | none => none
    | some r2 =>
      let varTok := r2.takeWhile (fun c => !(c == ',' || isJsWs c))
      if varTok.isEmpty then none
      else
        let r3 := r2.drop varTok.length
        let tryLabels : Option (String × List Char) :=
          if (r3.head?.map isJsWs).getD false then
            let r4 := r3.dropWhile isJsWs
            match dropPrefixQ "labels=\x7b".toList r4 with
            | none => none
            | some r5 =>
              let lab := r5.takeWhile (fun c => !(c == '\x7d'))
              match r5.drop lab.length with
              | '\x7d' :: r6 => some (jsTrim (String.mk lab), r6)
              | _ => none
          else none
        let cont : String → List Char → Option ((String × String × String) × List Char) :=
          fun labStr r =>
            if (r.head?.map isJsWs).getD false then
              let r8 := r.dropWhile isJsWs
              match dropPrefixQ "value=".toList r8 with
              | none => none
              | some r9 =>
                let valTok := r9.takeWhile (fun c => !(c == ',' || c == ']' || isJsWs c))
                if valTok.isEmpty then none
                else
                  match (r9.drop valTok.length).dropWhile isJsWs with
                  | ']' :: r11 => some ((String.mk varTok, labStr, String.mk valTok), r11)
                  | _ => none
            else none
        match tryLabels with
        | some (ls, r) => cont ls r
        | none => cont "" r3
  | _ => none

/-- Scan for successive non-overlapping matches (the `/g` regex), with a
fuel argument bounding the number of steps. -/
def scanVS : Nat → List Char → List (String × String × String)
  | 0, _ => []
  | _, [] => []
  | fuel + 1, c :: rest =>
    match parseVSOne (c :: rest) with
    | some (m, r2) => m :: scanVS fuel r2
    | none => scanVS fuel rest

/-- Append a var/value pair to its label group, preserving first-seen
group order (the JS `Map` insertion order). -/
def vsAddGroup (m : List (String × List (String × String))) (k : String)
    (v : String × String) : List (String × List (String × String)) :=
  match m with
  | [] => [(k, [v])]
  | (k0, vs) :: rest =>
    if k0 == k then (k0, vs ++ [v]) :: rest
    else (k0, vs) :: vsAddGroup rest k v

/-- Render the grouped matches: `[labels] var=value, ...` groups joined
with `"; "`. -/
def vsRender (m : List (String × List (String × String))) : String :=
  joinSep "; " (m.map (fun g =>
    let pairs := joinSep ", " (g.2.map (fun it => it.1 ++ "=" ++ it.2))
    if g.1 ≠ "" then "[" ++ g.1 ++ "] " ++ pairs else pairs))

/-- `parseValueString`: extract the structured `var=value` groups from a
free-text `valueString`; parse failure is non-fatal and returns the raw
text unchanged. -/
def parseValueString (valueString : String) : String :=
  if valueString == "" then ""
  else
    match scanVS (valueString.length + 1) valueString.toList with
    | [] => valueString
    | ms => vsRender (ms.foldl (fun m it => vsAddGroup m it.2.1 (it.1, it.2.2)) [])

/-- `GrafanaTransformer.transform`: extract title and state, require the
priority and team fields, and assemble the canonical event; every failure
throws a plain `Error` (`ThrownKind.genericError`) whose message names
the field and appends the debug context.  `now` is the transformer's
clock (`new Date().toISOString()`). -/
def GrafanaTransformer.transform (now : String) (p : GrafanaPayload) (env : Envelope) :
    Except TransformError AlertEvent :=
  match extractTitle p (effAlert p) (labelsOf p) with
  | .error e => .error e
  | .ok title =>
    match extractState p with
    | .error e => .error e
    | .ok state =>
      match jsOrs [(annsOf p).Priority, (annsOf p).priority, (labelsOf p).priority,
          p.priority] with
      | none =>
        .error ⟨.genericError,
          "Missing required field \"Priority\" in Grafana alert annotations. Please add this to make the alert work. " ++
            extractDebugContext p env⟩
      | some priorityValue =>
        match jsOrs [(annsOf p).Team, (annsOf p).TEAM, (annsOf p).team,
            (labelsOf p).team, p.team] with
        | none =>
          .error ⟨.genericError,
            "Missing required field \"Team\" in Grafana alert annotations. Please add this to make the alert work. " ++
              extractDebugContext p env⟩
        | some teamValue =>
          match extractPriority priorityValue with
          | .error e => .error e
          | .ok priority =>
            .ok { schema_version := 1, source := "grafana", state := state, title := title,
                  description := some (sanitizeString (((annsOf p).description).getD "") 1500),
                  summary := some (sanitizeString (((annsOf p).summary).getD "") 1500),
                  reason := some (sanitizeString
                    (parseValueString (((effAlert p).valueString).getD "")) 500),
                  priority := priority,
                  occurred_at := extractOccurredAt (effAlert p) p now,
                  team := extractTeam teamValue,
                  identity := { account_id := p.orgId,
                                alarm_id := jsOr (effAlert p).fingerprint p.rule_id },
                  links := { runbook_url := validateUrl
                               ((jsOr ((annsOf p).runbook_url) ((labelsOf p).runbook_url)).getD ""),
                             dashboard_url := validateUrl
                               ((jsOr (effAlert p).dashboardURL (effAlert p).panelURL).getD ""),
                             source_url := validateUrl
                               ((jsOr (effAlert p).generatorURL p.generatorURL).getD ""),
                             silence_url := validateUrl (((effAlert p).silenceURL).getD "") } }

/-! ## Canonical pass-through path (`NormalizedTransformer` plus the AJV
schema validator of `validateNormalizedAlertEvent`)

The JSON Schema file itself is not among the sources; the field rules are
modelled from the schema README tables and the validator test suite.  AJV
runs with `allErrors: true`, so every violation is collected before the
single aggregated error is thrown. -/

/-- A candidate pre-normalized payload: every AlertEvent field may be
absent, and enum-valued fields are raw strings still to be validated. -/
structure RawAlertEvent where
  schema_version : Option Int := none
  source : Option String := none
  state : Option String := none
  title : Option String := none
  description : Option String := none
  summary : Option String := none
  reason : Option String := none
  priority : Option String := none
  occurred_at : Option String := none
  team : Option String := none
  identity : Option AlertIdentity := none
  links : Option AlertLinks := none
deriving DecidableEq, Repr

/-- ASCII letter or digit. -/
def isAlphaNumC (c : Char) : Bool :=
  (48 ≤ c.toNat && c.toNat ≤ 57) || (65 ≤ c.toNat && c.toNat ≤ 90) ||
    (97 ≤ c.toNat && c.toNat ≤ 122)

/-- Modelled from the schema README: source/team are alphanumeric plus
hyphens and underscores, nonempty. -/
def isSlug (s : String) : Bool :=
  !(s == "") && s.toList.all (fun c => isAlphaNumC c || c == '-' || c == '_')

def isDigitC (c : Char) : Bool := 48 ≤ c.toNat && c.toNat ≤ 57

/-- Timezone designator of an RFC3339 date-time: `Z` or a `±hh:mm`
offset. -/
def isTzMark : List Char → Bool
  | ['Z'] => true
  | ['+', a, b, ':', c, d] => isDigitC a && isDigitC b && isDigitC c && isDigitC d
  | ['-', a, b, ':', c, d] => isDigitC a && isDigitC b && isDigitC c && isDigitC d
  | _ => false

/-- Timezone tail of an RFC3339 date-time, optionally preceded by a
fractional-seconds part. -/
def isTzTail (l : List Char) : Bool :=
  match l with
  | '.' :: r =>
    let ds := r.takeWhile isDigitC
    !ds.isEmpty && isTzMark (r.drop ds.length)
  | _ => isTzMark l

/-- Modelled from the schema README and the validator tests: an ISO-8601
(RFC3339) UTC date-time; a bare date or a missing timezone is invalid. -/
def isIsoDateTime (s : String) : Bool :=
  match s.toList with
  | y1 :: y2 :: y3 :: y4 :: '-' :: m1 :: m2 :: '-' :: d1 :: d2 :: 'T' ::
      h1 :: h2 :: ':' :: mi1 :: mi2 :: ':' :: s1 :: s2 :: rest =>
    isDigitC y1 && isDigitC y2 && isDigitC y3 && isDigitC y4 &&
    isDigitC m1 && isDigitC m2 && isDigitC d1 && isDigitC d2 &&
    isDigitC h1 && isDigitC h2 && isDigitC mi1 && isDigitC mi2 &&
    isDigitC s1 && isDigitC s2 && isTzTail rest
  | _ => false

/-- Modelled from the schema (AJV `format: uri`): a well-formed URI has
an alphabetic scheme followed by a colon; this is weaker than the
security rule `validateUrl`, which additionally requires the http/https
scheme (the transformer comments that schema format validation needs the
extra security validation on top). -/
def isUriFormat (s : String) : Bool :=
  let scheme := s.toList.takeWhile (fun c => !(c == ':'))
  !scheme.isEmpty &&
    scheme.all (fun c => (65 ≤ c.toNat && c.toNat ≤ 90) || (97 ≤ c.toNat && c.toNat ≤ 122)) &&
    ((s.toList.drop scheme.length).head? == some ':') && s.length ≤ 2048

/-- Schema check of one optional link field. -/
def linkSchemaErrs (name : String) (o : Option String) : List String :=
  match o with
  | none => []
  | some u => if isUriFormat u then [] else ["links/" ++ name ++ ": must be a valid URI"]

/-- All schema violations of a payload, one entry per violated field
(AJV `allErrors: true` collects them all). -/
def collectErrors (r : RawAlertEvent) : List String :=
  (match r.schema_version with
    | none => ["schema_version: missing required property"]
    | some v => if v < 1 then ["schema_version: must be an integer >= 1"] else []) ++
  (match r.source with
    | none => ["source: missing required property"]
    | some s => if isSlug s then [] else ["source: must match the slug pattern"]) ++
  (match r.state with
    | none => ["state: missing required property"]
    | some s => if s == "FIRING" || s == "RESOLVED" then []
                else ["state: must be FIRING or RESOLVED"]) ++
  (match r.title with
    | none => ["title: missing required property"]
    | some t => if 0 < t.length && t.length ≤ 500 then []
                else ["title: must be 1 to 500 characters"]) ++
  (match r.priority with
    | none => ["priority: missing required property"]
    | some pr => if pr == "P0" || pr == "P1" || pr == "P2" || pr == "P3" then []
                 else ["priority: must be one of P0, P1, P2, P3"]) ++
  (match r.occurred_at with
    | none => ["occurred_at: missing required property"]
    | some ts => if isIsoDateTime ts then []
                 else ["occurred_at: must be an ISO-8601 date-time"]) ++
  (match r.team with
    | none => ["team: missing required property"]
    | some tm => if isSlug tm then [] else ["team: must match the slug pattern"]) ++
  (if r.identity.isNone then ["identity: missing required property"] else []) ++
  (if r.links.isNone then ["links: missing required property"] else []) ++
  (match r.description with
    | none => []
    | some d => if d.length ≤ 4000 then [] else ["description: must be at most 4000 characters"]) ++
  (match r.summary with
    | none => []
    | some d => if d.length ≤ 1000 then [] else ["summary: must be at most 1000 characters"]) ++
  (match r.reason with
    | none => []
    | some d => if d.length ≤ 2000 then [] else ["reason: must be at most 2000 characters"]) ++
  linkSchemaErrs "runbook_url" ((r.links.getD {}).runbook_url) ++
  linkSchemaErrs "dashboard_url" ((r.links.getD {}).dashboard_url) ++
  linkSchemaErrs "source_url" ((r.links.getD {}).source_url) ++
  linkSchemaErrs "silence_url" ((r.links.getD {}).silence_url)

/-- The aggregated message of `validateNormalizedAlertEvent`: every
violation joined with newlines, followed by the schema pointer block. -/
def valMsg (r : RawAlertEvent) : String :=
  "AlertEvent validation failed:\n" ++ joinSep "\n" (collectErrors r) ++
    "\n\nSchema: https://schemas.pytorch.org/alerting/alert-event.schema.json\n" ++
    "For documentation and examples, see: https://github.com/pytorch/test-infra-alerting/tree/main/lambdas/collector/schemas"

/-- `validateNormalizedAlertEvent`: succeed, or throw the single
aggregated error. -/
def validateNormalizedAlertEvent (r : RawAlertEvent) : Except String Unit :=
  if collectErrors r = [] then .ok () else .error (valMsg r)

/-- The `catch` wrapper of `NormalizedTransformer.transform` adding
context to every error it rethrows. -/
def wrapNorm (m : String) : String :=
  "Normalized alert validation failed: " ++ m ++
    "\n\nEnsure your alert conforms to the AlertEvent schema. See: https://github.com/pytorch/test-infra-alerting/tree/main/lambdas/collector/schemas"

/-- One step of `validateAlertEventUrls`: a truthy link must pass the
strict security rule or the transform throws; valid links carry the
validated URL string. -/
def checkLink (name : String) (o : Option String) : Except String (Option String) :=
  if truthy o then
    match validateUrl (o.getD "") with
    | some v => .ok (some v)
    | none => .error ("Invalid " ++ name ++ " after security validation: " ++ o.getD "")
  else .ok o

/-- Links of a raw payload (`{}` when absent, as after schema success the
field is present anyway). -/
def linksOf (r : RawAlertEvent) : AlertLinks := r.links.getD {}

/-- Parse an already-validated priority string. -/
def priorityOfString (s : String) : Priority :=
  if s == "P0" then .P0 else if s == "P1" then .P1 else if s == "P2" then .P2 else .P3

/-- The canonical event a schema-valid raw payload denotes, with the
given (sanitized) links; the defaults are never reached on schema-valid
payloads. -/
def toAlertEvent (r : RawAlertEvent) (links : AlertLinks) : AlertEvent :=
  { schema_version := (r.schema_version.getD 1).toNat,
    source := r.source.getD "",
    state := if r.state.getD "" == "FIRING" then .FIRING else .RESOLVED,
    title := r.title.getD "",
    description := r.description,
    summary := r.summary,
    reason := r.reason,
    priority := priorityOfString (r.priority.getD ""),
    occurred_at := r.occurred_at.getD "",
    team := r.team.getD "",
    identity := r.identity.getD {},
    links := links }

/-- `NormalizedTransformer.transform`: schema-validate, then re-validate
each present link with the strict fatal rule, then return the event
itself; every thrown error is wrapped with the transform context. -/
def normalizedTransform (r : RawAlertEvent) : Except String AlertEvent :=
  match validateNormalizedAlertEvent r with
  | .error m => .error (wrapNorm m)
  | .ok _ =>
    match checkLink "runbook_url" (linksOf r).runbook_url with
    | .error m => .error (wrapNorm m)
    | .ok ru =>
      match checkLink "dashboard_url" (linksOf r).dashboard_url with
      | .error m => .error (wrapNorm m)
      | .ok du =>
        match checkLink "source_url" (linksOf r).source_url with
        | .error m => .error (wrapNorm m)
        | .ok su =>
          match checkLink "silence_url" (linksOf r).silence_url with
          | .error m => .error (wrapNorm m)
          | .ok si => .ok (toAlertEvent r ⟨ru, du, su, si⟩)

/-! ## Orchestrator (`src/lambdas/collector/src/index.ts`, per-record body
of `handler`)

External collaborators (the processor result, the GitHub client and the
DynamoDB state manager) are modelled as oracle inputs; the handler body is
translated as a function from those inputs to the ordered list of side
effects it performs plus whether the record is reported in
`batchItemFailures`. -/

/-- The spec's §7 error taxonomy for a failed processor result.  The
handler body never inspects it; carrying it in the result makes that
observable. -/
inductive ErrKind
  | validation
  | transientFault
deriving DecidableEq, Repr

/-- The processor (`processor.processRecord`) outcome consumed by the
handler.  Modelled from the spec (§6): the processor module is not among
the sources; a discriminated result with the §7 error classification on
failure, and fingerprint / action / normalized event on success. -/
structure ProcOutcome where
  success : Bool
  fingerprint : Option String := none
  action : Option LifecycleAction := none
  alertEvent : Option AlertEvent := none
  errKind : Option ErrKind := none
deriving DecidableEq, Repr

/-- Outcomes of the GitHub client calls, as seen by the handler:
`createGitHubIssueForAlert` catches internally and reports success with an
issue number or failure; close/comment report a boolean. -/
structure GithubOracle where
  createResult : Option Nat := none
  closeOk : Bool := false
  commentOk : Bool := false
deriving DecidableEq, Repr

/-- Environment of one handler invocation: configuration flags, the state
loaded by `stateManager.loadState`, the GitHub call outcomes and whether
the DynamoDB save succeeds. -/
structure HandlerEnv where
  enableGithubIssues : Bool
  hasStateManager : Bool
  loadedState : Option AlertStateRec := none
  github : GithubOracle := {}
  saveOk : Bool := true
deriving DecidableEq, Repr

/-- Side effects of the handler body, in execution order. -/
inductive Effect
  | githubCreate
  | githubClose (issue : Nat)
  | githubComment (issue : Nat)
  | loadState
  | saveState (issueNumber : Option Nat)
deriving DecidableEq, Repr

/-- Is an effect the state-store write? -/
def Effect.isSave : Effect → Bool
  | .saveState _ => true
  | _ => false

/-- The GitHub block of the handler body (index.ts lines 270-341): which
tracker effects run, whether the mutation succeeded (`emittedToGithub`)
and the `issueNumber` variable afterwards.  On CLOSE and COMMENT the
existing issue number is kept whether or not the mutation succeeded. -/
def githubStep (env : HandlerEnv) (res : ProcOutcome) : List Effect × Bool × Option Nat :=
  if env.enableGithubIssues && res.alertEvent.isSome then
    match res.action with
    | some .CREATE =>
      ([.githubCreate], (env.github.createResult).isSome, env.github.createResult)
    | some .CLOSE =>
      if env.hasStateManager then
        match env.loadedState.bind (fun st => st.issue_number) with
        | some n => ([.loadState, .githubClose n], env.github.closeOk, some n)
        | none => ([.loadState], false, none)
      else ([], false, none)
    | some .COMMENT =>
      if env.hasStateManager then
        match env.loadedState.bind (fun st => st.issue_number) with
        | some n => ([.loadState, .githubComment n], env.github.commentOk, some n)
        | none => ([.loadState], false, none)
      else ([], false, none)
    | _ => ([], false, none)
  else ([], false, none)

/-- Per-record body of `handler` (index.ts lines 174-391): process, then
the GitHub block (CREATE / CLOSE / COMMENT, failures logged and
swallowed), then the unconditional DynamoDB save; any processing failure,
missing fingerprint/action, missing state manager or alert event, or save
failure pushes the record's messageId to `batchItemFailures` (returned
here as the `Bool`). -/
def handleRecord (env : HandlerEnv) (res : ProcOutcome) : List Effect × Bool :=
  if !res.success then
    ([], true)
  else if res.fingerprint.isNone || res.action.isNone then
    ([], true)
  else
    let ghTrace := (githubStep env res).1
    let issueNumber := (githubStep env res).2.2
    if env.hasStateManager && res.alertEvent.isSome then
      (ghTrace ++ [.saveState issueNumber], !env.saveOk)
    else
      (ghTrace, true)

/-- The GitHub block's trace is one of five shapes, none containing a
state write. -/
theorem githubStep_no_save (env : HandlerEnv) (res : ProcOutcome) :
    ∀ e ∈ (githubStep env res).1, e.isSave = false := by
  have h : (githubStep env res).1 = [] ∨ (githubStep env res).1 = [.githubCreate] ∨
      (githubStep env res).1 = [.loadState] ∨
      (∃ n, (githubStep env res).1 = [.loadState, .githubClose n]) ∨
      (∃ n, (githubStep env res).1 = [.loadState, .githubComment n]) := by
    unfold githubStep
    repeat' split
    all_goals simp
  intro e he
  rcases h with h | h | h | ⟨n, h⟩ | ⟨n, h⟩ <;> rw [h] at he <;>
    simp only [List.mem_cons, List.mem_singleton, List.not_mem_nil, or_false] at he <;>
    first
      | exact he.elim
      | (rcases he with rfl | rfl <;> rfl)

/-! ## Claim C1 -/

/-- C1: `generateFingerprint` hashes the `"|"`-joined, key-sorted `key=value`
rendering of `source`, the trimmed and case-folded title, and the present
identity sub-fields with SHA-256 (the construction is `generateFingerprint`,
`fingerprintInputs` and `sortAndHashObject` above); consequently two
`AlertEvent`s with the same source, the same identity fields, and titles
that agree up to surrounding whitespace and capitalization receive the same
fingerprint.  Identity-field presence order cannot influence the hash: the
inputs are assembled in a fixed order and then key-sorted. -/
theorem generateFingerprint_deterministic (e1 e2 : AlertEvent)
    (hsrc : e1.source = e2.source)
    (hid : e1.identity = e2.identity)
    (htitle : normalizeTitleFp e1.title = normalizeTitleFp e2.title) :
    generateFingerprint e1 = generateFingerprint e2 := by
  unfold generateFingerprint fingerprintInputs
  rw [hsrc, hid, htitle]

/-- Witness for C1 at concrete events: titles differing in case and
surrounding whitespace, identical source and identity. -/
theorem generateFingerprint_deterministic_witness :
    normalizeTitleFp "  High CPU Usage " = normalizeTitleFp "high cpu usage" ∧
    generateFingerprint
        { schema_version := 1, source := "cloudwatch", state := .FIRING,
          title := "  High CPU Usage ", priority := .P1,
          occurred_at := "2025-09-16T12:00:00.000Z", team := "platform",
          identity := { account_id := some "123456789012", region := some "us-east-1" },
          links := {} } =
      generateFingerprint
        { schema_version := 1, source := "cloudwatch", state := .RESOLVED,
          title := "high cpu usage", priority := .P1,
          occurred_at := "2025-09-16T12:05:00.000Z", team := "platform",
          identity := { account_id := some "123456789012", region := some "us-east-1" },
          links := {} } :=
  ⟨by decide, generateFingerprint_deterministic _ _ (by decide) (by decide) (by decide)⟩

/-! ## Claim C2 -/

/-- C2: for every persisted prior state with status OPEN and
`manually_closed = false`, and every incoming event (FIRING or RESOLVED)
whose `occurred_at` is strictly earlier than the prior state's
`last_provider_state_at`, the decision engine returns SKIP_STALE and
leaves the persisted state unchanged. -/
theorem decideLifecycle_skip_stale (st : AlertStateRec) (ev : AlertEvent)
    (hopen : st.status = .OPEN) (hman : st.manually_closed = false)
    (hstale : jsStrLt ev.occurred_at st.last_provider_state_at = true) :
    decideLifecycle (some st) ev = (.SKIP_STALE, some st) := by
  simp [decideLifecycle, hopen, hman, hstale]

/-- Witness for C2 at a concrete stale FIRING event against an open,
not-manually-closed prior state. -/
theorem decideLifecycle_skip_stale_witness :
    jsStrLt "2025-09-16T12:00:00.000Z" "2025-09-16T12:05:00.000Z" = true ∧
    decideLifecycle
        (some ⟨.OPEN, false, "2025-09-16T12:05:00.000Z", some 7⟩)
        { schema_version := 1, source := "grafana", state := .FIRING,
          title := "Test Alert", priority := .P1,
          occurred_at := "2025-09-16T12:00:00.000Z", team := "dev-infra",
          identity := {}, links := {} } =
      (.SKIP_STALE, some ⟨.OPEN, false, "2025-09-16T12:05:00.000Z", some 7⟩) :=
  ⟨by decide, decideLifecycle_skip_stale _ _ (by decide) (by decide) (by decide)⟩

/-! ## Claim C5 -/

/-- C5: every comma-separated entry is trimmed, whitespace-hyphenated and
lower-cased with empty entries dropped (any successful parse returns
exactly those survivors, between 1 and 10 of them, each at most 50
characters); zero survivors, more than 10 entries, and an over-long entry
each fail with the corresponding validation error; and the plural field
takes precedence over the singular one when both are present. -/
theorem parseTeams_spec :
    (∀ raw ts, parseTeams raw = .ok ts →
      ts = ((splitCommas raw).map normalizeTeamName).filter (fun t => t ≠ "") ∧
      1 ≤ ts.length ∧ ts.length ≤ 10 ∧ ∀ t ∈ ts, t.length ≤ 50) ∧
    (∀ raw, teamsOf raw = [] →
      parseTeams raw = .error "No valid team names found after parsing comma-delimited list") ∧
    (∀ raw, 10 < (teamsOf raw).length →
      parseTeams raw =
        .error ("Too many teams specified (max 10, got " ++
          toString (teamsOf raw).length ++ ")")) ∧
    (∀ raw t, t ∈ teamsOf raw → 50 < t.length → ∃ m, parseTeams raw = .error m) ∧
    (∀ p s, p ≠ "" → selectTeamsField (some p) s = some p) := by
  refine ⟨?_, ?_, ?_, ?_, ?_⟩
  · intro raw ts h
    unfold parseTeams at h
    split_ifs at h with h1 h2 h3
    cases h
    refine ⟨rfl, ?_, by omega, ?_⟩
    · have : teamsOf raw ≠ [] := by
        intro hnil
        simp [hnil] at h1
      have := List.length_pos.mpr this
      simpa [teamsOf] using this
    · intro t ht
      by_contra hlong
      exact h3 (List.any_eq_true.mpr ⟨t, ht, by simp only [decide_eq_true_eq]; omega⟩)
  · intro raw hnil
    unfold parseTeams
    simp [hnil]
  · intro raw hlen
    unfold parseTeams
    have h1 : ¬(teamsOf raw).isEmpty = true := by
      intro h
      rw [List.isEmpty_iff] at h
      simp [h] at hlen
    rw [if_neg h1, if_pos hlen]
  · intro raw t ht hlong
    unfold parseTeams
    split_ifs with h1 h2 h3
    · exact ⟨_, rfl⟩
    · exact ⟨_, rfl⟩
    · exact ⟨_, rfl⟩
    · exact absurd (List.any_eq_true.mpr ⟨t, ht, by simp only [decide_eq_true_eq]; omega⟩) h3
  · intro p s hp
    unfold selectTeamsField jsOr truthy
    simp [hp]

/-- Witness for C5 at the spec's concrete examples: a valid three-team
list parses to normalized slugs; a list of only empty entries, and a
51-character entry, fail validation; eleven entries fail validation; the
plural field wins over the singular one. -/
theorem parseTeams_spec_witness :
    parseTeams "dev-infra, platform, security" =
      .ok ["dev-infra", "platform", "security"] ∧
    parseTeams ",  , , " =
      .error "No valid team names found after parsing comma-delimited list" ∧
    (∃ m, parseTeams
      "team1, team2, team3, team4, team5, team6, team7, team8, team9, team10, team11" =
        .error m) ∧
    (∃ m, parseTeams "aaaaaaaaaaaaaaaaaaaaaaaaaaaaaaaaaaaaaaaaaaaaaaaaaaa" = .error m) ∧
    selectTeamsField (some "new-team1, new-team2") (some "old-team") =
      some "new-team1, new-team2" := by
  refine ⟨by decide, parseTeams_spec.2.1 _ (by decide),
    ⟨_, parseTeams_spec.2.2.1 _ (by decide)⟩,
    parseTeams_spec.2.2.2.1 _ "aaaaaaaaaaaaaaaaaaaaaaaaaaaaaaaaaaaaaaaaaaaaaaaaaaa"
      (by decide) (by decide),
    parseTeams_spec.2.2.2.2 _ _ (by decide)⟩

/-! ## Claim C6 -/

/-- The kind of thrown error value, observable on a transform result. -/
def thrownKindOf : Except TransformError AlertEvent → Option ThrownKind
  | .error e => some e.kind
  | .ok _ => none

/-- C6 counterexample: a Grafana payload missing its priority field fails
with a plain generic `Error` (the sources define no `ValidationError`
class at all), not with a distinguished `ValidationError` type — the
claim's distinguished-type requirement is false at this input. -/
theorem grafana_error_not_validation_counterexample :
    thrownKindOf (GrafanaTransformer.transform "2025-09-16T12:10:00.000Z"
        { alerts := [{ labels := some { rulename := some "Runner Down" },
                       anns := some { Team := some "dev-infra" },
                       status := some "firing" }] }
        ⟨"2025-09-16T12:00:00.000Z", "t", "us-east-1", 1, "msg-1"⟩) =
      some .genericError ∧
    ThrownKind.genericError ≠ ThrownKind.validationKind :=
  ⟨rfl, by decide⟩

/-- C6 amended: a Grafana payload missing priority, team or title, or
carrying an unrecognized state value, fails with a plain generic `Error`
(not a distinguished `ValidationError` type) whose message names the
missing or invalid field and embeds the debug context built by
`extractDebugContext` (source, best-effort title/team, generator URL,
and — on the missing-priority/team paths, which use the real envelope —
the message id; the title and state paths rebuild an empty envelope, so
their context carries no message id). -/
theorem grafana_errors_amended :
    (∀ now p env t s, extractTitle p (effAlert p) (labelsOf p) = .ok t →
      extractState p = .ok s →
      jsOrs [(annsOf p).Priority, (annsOf p).priority, (labelsOf p).priority,
        p.priority] = none →
      GrafanaTransformer.transform now p env =
        .error ⟨.genericError,
          "Missing required field \"Priority\" in Grafana alert annotations. Please add this to make the alert work. " ++
            extractDebugContext p env⟩) ∧
    (∀ now p env t s pv, extractTitle p (effAlert p) (labelsOf p) = .ok t →
      extractState p = .ok s →
      jsOrs [(annsOf p).Priority, (annsOf p).priority, (labelsOf p).priority,
        p.priority] = some pv →
      jsOrs [(annsOf p).Team, (annsOf p).TEAM, (annsOf p).team,
        (labelsOf p).team, p.team] = none →
      GrafanaTransformer.transform now p env =
        .error ⟨.genericError,
          "Missing required field \"Team\" in Grafana alert annotations. Please add this to make the alert work. " ++
            extractDebugContext p env⟩) ∧
    (∀ now p env t s9, extractTitle p (effAlert p) (labelsOf p) = .ok t →
      statusCand p = some s9 →
      asciiLower s9 ≠ "firing" → asciiLower s9 ≠ "alerting" →
      asciiLower s9 ≠ "resolved" → asciiLower s9 ≠ "ok" →
      GrafanaTransformer.transform now p env =
        .error ⟨.genericError, stateErrMsg s9 p⟩) ∧
    (∀ (now : String) (p : GrafanaPayload) (env : Envelope),
      jsOrs [(labelsOf p).rulename, (effAlert p).labels.bind (fun l => l.rulename),
        (labelsOf p).alertname, (effAlert p).labels.bind (fun l => l.alertname),
        p.groupLabels.bind (fun l => l.alertname), p.title] = none →
      GrafanaTransformer.transform now p env =
        .error ⟨.genericError,
          "Missing required field \"rulename\" or \"alertname\" in Grafana alert labels. This indicates corrupted data from Grafana. " ++
            extractDebugContext p debugEnvelope⟩) := by
  refine ⟨?_, ?_, ?_, ?_⟩
  · intro now p env t s ht hs hp
    simp only [GrafanaTransformer.transform, ht, hs, hp]
  · intro now p env t s pv ht hs hp htm
    simp only [GrafanaTransformer.transform, ht, hs, hp, htm]
  · intro now p env t s9 ht hcand h1 h2 h3 h4
    have hstate : extractState p = .error ⟨.genericError, stateErrMsg s9 p⟩ := by
      simp only [extractState, hcand]
      simp [h1, h2, h3, h4]
    simp only [GrafanaTransformer.transform, ht, hstate]
  · intro now p env hcands
    have htitle : extractTitle p (effAlert p) (labelsOf p) =
        .error ⟨.genericError,
          "Missing required field \"rulename\" or \"alertname\" in Grafana alert labels. This indicates corrupted data from Grafana. " ++
            extractDebugContext p debugEnvelope⟩ := by
      simp only [extractTitle, hcands]
    simp only [GrafanaTransformer.transform, htitle]

/-- Witness for C6 at concrete payloads: one with title and state present
but no priority anywhere gets the generic missing-priority error with the
appended context, and one with no title candidate at all gets the generic
missing-title error whose context is built from the rebuilt empty
envelope. -/
theorem grafana_errors_amended_witness :
    (GrafanaTransformer.transform "2025-09-16T12:10:00.000Z"
        { alerts := [{ labels := some { alertname := some "DiskFull" },
                       anns := some { TEAM := some "platform" },
                       status := some "resolved" }] }
        ⟨"2025-09-16T12:00:00.000Z", "t", "us-east-1", 1, "msg-2"⟩ =
      .error ⟨.genericError,
        "Missing required field \"Priority\" in Grafana alert annotations. Please add this to make the alert work. " ++
          extractDebugContext
            { alerts := [{ labels := some { alertname := some "DiskFull" },
                           anns := some { TEAM := some "platform" },
                           status := some "resolved" }] }
            ⟨"2025-09-16T12:00:00.000Z", "t", "us-east-1", 1, "msg-2"⟩⟩) ∧
    (GrafanaTransformer.transform "2025-09-16T12:10:00.000Z"
        { alerts := [{ anns := some { Priority := some "P1", Team := some "platform" },
                       status := some "firing" }] }
        ⟨"2025-09-16T12:00:00.000Z", "t", "us-east-1", 1, "msg-4"⟩ =
      .error ⟨.genericError,
        "Missing required field \"rulename\" or \"alertname\" in Grafana alert labels. This indicates corrupted data from Grafana. " ++
          extractDebugContext
            { alerts := [{ anns := some { Priority := some "P1", Team := some "platform" },
                           status := some "firing" }] }
            debugEnvelope⟩) :=
  ⟨grafana_errors_amended.1 "2025-09-16T12:10:00.000Z" _ _ "DiskFull" .RESOLVED
      (by decide) (by decide) (by decide),
   grafana_errors_amended.2.2.2 "2025-09-16T12:10:00.000Z" _ _ (by decide)⟩

/-! ## Claim C9 -/

/-- A selected occurred-at candidate is nonempty and never the Go
zero-time sentinel. -/
theorem firstOccCand_spec (l : List (Option String)) (c : String) :
    firstOccCand l = some c → c ≠ "" ∧ c ≠ goZeroTime := by
  induction l with
  | nil => intro h; simp [firstOccCand] at h
  | cons o rest ih =>
    intro h
    cases o with
    | none =>
      exact ih (by simpa [firstOccCand] using h)
    | some v =>
      by_cases hv : v ≠ "" ∧ v ≠ goZeroTime
      · rw [firstOccCand, if_pos hv] at h
        cases h
        exact hv
      · rw [firstOccCand, if_neg hv] at h
        exact ih h

/-- C9: `occurred_at` is the first present (truthy) candidate among
alert-level then top-level `startsAt`/`endsAt` that is not the Go
zero-time sentinel, passed through `parseTimestamp`; with no such
candidate it is the transformer's current time, never a failure: under
the hypotheses that make the rest of the payload valid, `transform` still
succeeds and stamps `now`.  In particular the result never equals the
sentinel when `now` does not. -/
theorem grafana_occurred_at_spec :
    (∀ (alert : GrafAlert) (p : GrafanaPayload) (now c : String),
      firstOccCand [alert.startsAt, alert.endsAt, p.startsAt, p.endsAt] = some c →
      extractOccurredAt alert p now = parseTimestamp c ∧ parseTimestamp c = c ∧
        c ≠ goZeroTime) ∧
    (∀ (alert : GrafAlert) (p : GrafanaPayload) (now : String),
      firstOccCand [alert.startsAt, alert.endsAt, p.startsAt, p.endsAt] = none →
      extractOccurredAt alert p now = now) ∧
    (∀ (alert : GrafAlert) (p : GrafanaPayload) (now : String), now ≠ goZeroTime →
      extractOccurredAt alert p now ≠ goZeroTime) ∧
    (∀ now p env t s pv tv pr,
      extractTitle p (effAlert p) (labelsOf p) = .ok t →
      extractState p = .ok s →
      jsOrs [(annsOf p).Priority, (annsOf p).priority, (labelsOf p).priority,
        p.priority] = some pv →
      jsOrs [(annsOf p).Team, (annsOf p).TEAM, (annsOf p).team,
        (labelsOf p).team, p.team] = some tv →
      extractPriority pv = .ok pr →
      firstOccCand [(effAlert p).startsAt, (effAlert p).endsAt,
        p.startsAt, p.endsAt] = none →
      ∃ a, GrafanaTransformer.transform now p env = .ok a ∧ a.occurred_at = now) := by
  refine ⟨?_, ?_, ?_, ?_⟩
  · intro alert p now c h
    refine ⟨by simp [extractOccurredAt, h], rfl, (firstOccCand_spec _ _ h).2⟩
  · intro alert p now h
    simp [extractOccurredAt, h]
  · intro alert p now hnow
    unfold extractOccurredAt
    cases hc : firstOccCand [alert.startsAt, alert.endsAt, p.startsAt, p.endsAt] with
    | none => exact hnow
    | some c => exact (firstOccCand_spec _ _ hc).2
  · intro now p env t s pv tv pr ht hs hp htm hpr hocc
    simp only [GrafanaTransformer.transform, ht, hs, hp, htm, hpr]
    exact ⟨_, rfl, by simp [extractOccurredAt, hocc]⟩

/-- Witness for C9 at a concrete valid payload with no timestamp fields
at all: the transform succeeds and stamps the transformer's current
time. -/
theorem grafana_occurred_at_spec_witness :
    ∃ a, GrafanaTransformer.transform "2025-09-16T12:10:00.000Z"
        { alerts := [{ labels := some { rulename := some "Runners Scale Up Failure" },
                       anns := some { Priority := some "P1", Team := some "dev-infra" },
                       status := some "firing" }],
          orgId := some "1" }
        ⟨"2025-09-16T12:00:00.000Z", "t", "us-east-1", 1, "msg-3"⟩ = .ok a ∧
      a.occurred_at = "2025-09-16T12:10:00.000Z" :=
  grafana_occurred_at_spec.2.2.2 "2025-09-16T12:10:00.000Z" _ _
    "Runners Scale Up Failure" .FIRING "P1" "dev-infra" .P1
    (by decide) (by decide) (by decide) (by decide) (by decide) (by decide)

/-! ## External-alerts webhook (`lambdas/external-alerts-webhook`,
multi-header variant of `handler` / `isValidRequest`)

The secrets store is an oracle input (the model covers the path on which
the secrets were fetched); headers are an association list, lower-cased
like the handler does, with `Object.fromEntries` letting a later
duplicate key win. -/

/-- `Object.fromEntries` lookup (last occurrence of the key wins). -/
def lookupLast (hs : List (String × String)) (k : String) : Option String :=
  (hs.reverse.find? (fun kv => kv.1 == k)).map (fun kv => kv.2)

/-- Lower-case all header names (`[k.toLowerCase(), v]`). -/
def lowerHeaders (hs : List (String × String)) : List (String × String) :=
  hs.map (fun kv => (asciiLower kv.1, kv.2))

/-- Equality of the two tokens' SHA-256 digests (what `timingSafeEqual`
over the `digest` outputs decides). -/
def digestEq (a b : String) : Bool :=
  sha256Bytes (strBytes a) == sha256Bytes (strBytes b)

/-- `isValidToken`: an empty provided token is rejected, otherwise the
digests are compared timing-safely. -/
def isValidToken (providedToken expectedToken : String) : Bool :=
  if providedToken == "" then false else digestEq providedToken expectedToken

/-- `isValidRequest`: some configured header name carries a truthy token
that digest-matches the stored secret. -/
def isValidRequest (headers : List (String × String))
    (webhookSecrets : List (String × String)) : Bool :=
  webhookSecrets.any (fun he =>
    match lookupLast headers (asciiLower he.1) with
    | some pv => !(pv == "") && isValidToken pv he.2
    | none => false)

/-- The webhook handler's observable outcome: the HTTP response and what
was published to SNS (message body and `source` attribute), if anything. -/
structure WebhookResponse where
  statusCode : Nat
  body : String
  published : Option (String × String)
deriving DecidableEq, Repr

/-- The webhook `handler` body on the fetched-secrets path: lower-case
the headers, authenticate, and either reject with 401 publishing nothing
or forward the body to SNS with message attribute `source=grafana`. -/
def webhookHandler (webhookSecrets : List (String × String))
    (headers : List (String × String)) (body : String) : WebhookResponse :=
  if !(isValidRequest (lowerHeaders headers) webhookSecrets) then
    ⟨401, "unauthorized", none⟩
  else
    ⟨200, "ok", some (body, "grafana")⟩

/-! ## Claim C10 -/

/-- C10: when no configured header/token pair digest-matches (the
`isValidRequest` check over the lower-cased headers), the webhook returns
401 and publishes nothing; something is published iff the check passes,
always the request body with message attribute `source=grafana`; the
match condition is exactly "some configured pair has a present, nonempty
token with an equal SHA-256 digest"; and an exactly-matching nonempty
header token always gets forwarded. -/
theorem webhookHandler_auth (secrets headers : List (String × String)) (body : String) :
    (isValidRequest (lowerHeaders headers) secrets = false →
      webhookHandler secrets headers body = ⟨401, "unauthorized", none⟩) ∧
    ((webhookHandler secrets headers body).published.isSome = true ↔
      isValidRequest (lowerHeaders headers) secrets = true) ∧
    (isValidRequest (lowerHeaders headers) secrets = true ↔
      ∃ he ∈ secrets, ∃ pv, lookupLast (lowerHeaders headers) (asciiLower he.1) = some pv ∧
        pv ≠ "" ∧ digestEq pv he.2 = true) ∧
    (∀ hname tok, (hname, tok) ∈ secrets →
      lookupLast (lowerHeaders headers) (asciiLower hname) = some tok → tok ≠ "" →
      webhookHandler secrets headers body = ⟨200, "ok", some (body, "grafana")⟩) := by
  refine ⟨?_, ?_, ?_, ?_⟩
  · intro h
    simp [webhookHandler, h]
  · constructor
    · intro h
      by_cases hv : isValidRequest (lowerHeaders headers) secrets = true
      · exact hv
      · rw [Bool.not_eq_true] at hv
        simp [webhookHandler, hv] at h
    · intro hv
      simp [webhookHandler, hv]
  · rw [isValidRequest, List.any_eq_true]
    constructor
    · rintro ⟨he, hmem, hcheck⟩
      cases hl : lookupLast (lowerHeaders headers) (asciiLower he.1) with
      | none => rw [hl] at hcheck; cases hcheck
      | some pv =>
        rw [hl] at hcheck
        simp only [Bool.and_eq_true, Bool.not_eq_true'] at hcheck
        obtain ⟨hne, htok⟩ := hcheck
        rw [isValidToken] at htok
        rw [if_neg (by simp [hne])] at htok
        exact ⟨he, hmem, pv, hl, by simpa using hne, htok⟩
    · rintro ⟨he, hmem, pv, hl, hne, hdig⟩
      refine ⟨he, hmem, ?_⟩
      rw [hl]
      simp only [Bool.and_eq_true, Bool.not_eq_true']
      refine ⟨by simpa using hne, ?_⟩
      rw [isValidToken, if_neg (by simpa using hne)]
      exact hdig
  · intro hname tok hmem hl hne
    have hv : isValidRequest (lowerHeaders headers) secrets = true := by
      rw [isValidRequest, List.any_eq_true]
      refine ⟨(hname, tok), hmem, ?_⟩
      rw [hl]
      simp only [Bool.and_eq_true, Bool.not_eq_true']
      refine ⟨by simpa using hne, ?_⟩
      rw [isValidToken, if_neg (by simpa using hne)]
      exact beq_self_eq_true _
    simp [webhookHandler, hv]

/-- Witness for C10: a request with no matching header is rejected with
nothing published, and a request presenting the exact configured token in
the configured header (case-insensitively named) is forwarded with the
`grafana` source attribute. -/
theorem webhookHandler_auth_witness :
    webhookHandler [("X-Grafana-Token", "s3cret")] [] "payload-a" =
      ⟨401, "unauthorized", none⟩ ∧
    webhookHandler [("X-Grafana-Token", "s3cret")]
        [("X-GRAFANA-TOKEN", "s3cret")] "payload-b" =
      ⟨200, "ok", some ("payload-b", "grafana")⟩ :=
  ⟨(webhookHandler_auth [("X-Grafana-Token", "s3cret")] [] "payload-a").1 (by decide),
   (webhookHandler_auth [("X-Grafana-Token", "s3cret")]
       [("X-GRAFANA-TOKEN", "s3cret")] "payload-b").2.2.2
     "X-Grafana-Token" "s3cret" (by decide) (by decide) (by decide)⟩

/-! ## Claim C7 -/

/-- String append is concatenation of the character lists. -/
theorem str_toList_append (a b : String) : (a ++ b).toList = a.toList ++ b.toList := rfl

/-- `strContains` decides list infix. -/
theorem strContains_iff_occurs (hay needle : String) :
    strContains hay needle = true ↔ needle.toList <:+: hay.toList := by
  unfold strContains
  rw [List.any_eq_true]
  constructor
  · rintro ⟨i, _, hp⟩
    rw [List.isPrefixOf_iff_prefix] at hp
    obtain ⟨t, ht⟩ := hp
    exact ⟨hay.toList.take i, t, by
      rw [List.append_assoc, ht, List.take_append_drop]⟩
  · rintro ⟨s, t, hst⟩
    refine ⟨s.length, ?_, ?_⟩
    · rw [List.mem_range]
      have : s.length ≤ hay.toList.length := by
        rw [← hst]
        simp [List.length_append]
      omega
    · rw [List.isPrefixOf_iff_prefix, ← hst, List.append_assoc, List.drop_left]
      exact List.prefix_append _ _

/-- Every element of a joined list occurs in the joined string. -/
theorem mem_joinSep_occurs (sep : String) (l : List String) (e : String) (h : e ∈ l) :
    e.toList <:+: (joinSep sep l).toList := by
  induction l with
  | nil => cases h
  | cons x xs ih =>
    rcases List.mem_cons.mp h with rfl | hmem
    · cases xs with
      | nil => exact List.infix_rfl
      | cons y ys =>
        show e.toList <:+: (e ++ sep ++ joinSep sep (y :: ys)).toList
        rw [str_toList_append, str_toList_append]
        exact ((List.prefix_append e.toList sep.toList).isInfix.trans
          (List.prefix_append _ _).isInfix)
    · cases xs with
      | nil => cases hmem
      | cons y ys =>
        show e.toList <:+: (x ++ sep ++ joinSep sep (y :: ys)).toList
        rw [str_toList_append, str_toList_append]
        exact (ih hmem).trans (List.suffix_append _ _).isInfix

/-- Every collected violation occurs verbatim in the wrapped aggregated
error message. -/
theorem valMsg_contains (r : RawAlertEvent) (e : String) (h : e ∈ collectErrors r) :
    strContains (wrapNorm (valMsg r)) e = true := by
  rw [strContains_iff_occurs]
  have h1 : e.toList <:+: (joinSep "\n" (collectErrors r)).toList :=
    mem_joinSep_occurs _ _ _ h
  refine h1.trans ?_
  unfold wrapNorm valMsg
  simp only [str_toList_append]
  refine ⟨"Normalized alert validation failed: ".toList ++
      "AlertEvent validation failed:\n".toList,
    ("\n\nSchema: https://schemas.pytorch.org/alerting/alert-event.schema.json\n").toList ++
      ("For documentation and examples, see: https://github.com/pytorch/test-infra-alerting/tree/main/lambdas/collector/schemas").toList ++
      ("\n\nEnsure your alert conforms to the AlertEvent schema. See: https://github.com/pytorch/test-infra-alerting/tree/main/lambdas/collector/schemas").toList, ?_⟩
  simp only [List.append_assoc]

/-- A truthy link failing the strict rule makes `checkLink` throw. -/
theorem checkLink_fails (name : String) (o : Option String)
    (h1 : truthy o = true) (h2 : validateUrl (o.getD "") = none) :
    checkLink name o =
      .error ("Invalid " ++ name ++ " after security validation: " ++ o.getD "") := by
  simp [checkLink, h1, h2]

/-- Schema validation succeeds exactly on violation-free payloads. -/
theorem validate_ok (r : RawAlertEvent) (h0 : collectErrors r = []) :
    validateNormalizedAlertEvent r = .ok () := by
  unfold validateNormalizedAlertEvent
  rw [if_pos h0]

/-- Schema validation throws the aggregated message on any violation. -/
theorem validate_err (r : RawAlertEvent) (h : collectErrors r ≠ []) :
    validateNormalizedAlertEvent r = .error (valMsg r) := by
  unfold validateNormalizedAlertEvent
  rw [if_neg h]

/-- C7: on the canonical pass-through path, every schema-violating
payload fails with the single aggregated error containing every violated
field's message (not only the first); and on every schema-valid payload,
each present link URL is re-validated with the strict rule, an invalid
URL being fatal (the transform throws) rather than silently dropped. -/
theorem normalizedTransform_aggregate_and_strict :
    (∀ r, collectErrors r ≠ [] →
      normalizedTransform r = .error (wrapNorm (valMsg r)) ∧
      ∀ e ∈ collectErrors r, strContains (wrapNorm (valMsg r)) e = true) ∧
    (∀ r, collectErrors r = [] →
      ((truthy (linksOf r).runbook_url = true ∧
          validateUrl ((linksOf r).runbook_url.getD "") = none) ∨
       (truthy (linksOf r).dashboard_url = true ∧
          validateUrl ((linksOf r).dashboard_url.getD "") = none) ∨
       (truthy (linksOf r).source_url = true ∧
          validateUrl ((linksOf r).source_url.getD "") = none) ∨
       (truthy (linksOf r).silence_url = true ∧
          validateUrl ((linksOf r).silence_url.getD "") = none)) →
      ∃ m, normalizedTransform r = .error m) := by
  constructor
  · intro r h
    refine ⟨?_, fun e he => valMsg_contains r e he⟩
    simp only [normalizedTransform, validate_err r h]
  · intro r h0 hbad
    rcases hbad with ⟨ht, hv⟩ | ⟨ht, hv⟩ | ⟨ht, hv⟩ | ⟨ht, hv⟩
    · exact ⟨_, by simp only [normalizedTransform, validate_ok r h0,
        checkLink_fails _ _ ht hv] <;> rfl⟩
    · cases hr : checkLink "runbook_url" (linksOf r).runbook_url with
      | error m =>
        exact ⟨_, by simp only [normalizedTransform, validate_ok r h0, hr] <;> rfl⟩
      | ok ru =>
        exact ⟨_, by
          simp only [normalizedTransform, validate_ok r h0, hr,
            checkLink_fails _ _ ht hv] <;> rfl⟩
    · cases hr : checkLink "runbook_url" (linksOf r).runbook_url with
      | error m =>
        exact ⟨_, by simp only [normalizedTransform, validate_ok r h0, hr] <;> rfl⟩
      | ok ru =>
        cases hd : checkLink "dashboard_url" (linksOf r).dashboard_url with
        | error m =>
          exact ⟨_, by simp only [normalizedTransform, validate_ok r h0, hr, hd] <;> rfl⟩
        | ok du =>
          exact ⟨_, by
            simp only [normalizedTransform, validate_ok r h0, hr, hd,
              checkLink_fails _ _ ht hv] <;> rfl⟩
    · cases hr : checkLink "runbook_url" (linksOf r).runbook_url with
      | error m =>
        exact ⟨_, by simp only [normalizedTransform, validate_ok r h0, hr] <;> rfl⟩
      | ok ru =>
        cases hd : checkLink "dashboard_url" (linksOf r).dashboard_url with
        | error m =>
          exact ⟨_, by simp only [normalizedTransform, validate_ok r h0, hr, hd] <;> rfl⟩
        | ok du =>
          cases hsrc : checkLink "source_url" (linksOf r).source_url with
          | error m =>
            exact ⟨_, by
              simp only [normalizedTransform, validate_ok r h0, hr, hd, hsrc] <;> rfl⟩
          | ok su =>
            exact ⟨_, by
              simp only [normalizedTransform, validate_ok r h0, hr, hd, hsrc,
                checkLink_fails _ _ ht hv] <;> rfl⟩

/-- Witness for C7: a payload missing its title with a bad priority gets
the aggregated error containing both field messages; a schema-valid
payload whose runbook link uses the ftp scheme (well-formed URI, so
schema-valid, but rejected by the strict http/https rule) makes the
transform throw. -/
theorem normalizedTransform_aggregate_and_strict_witness :
    normalizedTransform
        { schema_version := some 1, source := some "custom", state := some "FIRING",
          priority := some "P7", occurred_at := some "2024-01-15T10:30:00.000Z",
          team := some "test-team", identity := some {}, links := some {} } =
      .error (wrapNorm (valMsg
        { schema_version := some 1, source := some "custom", state := some "FIRING",
          priority := some "P7", occurred_at := some "2024-01-15T10:30:00.000Z",
          team := some "test-team", identity := some {}, links := some {} })) ∧
    strContains (wrapNorm (valMsg
        { schema_version := some 1, source := some "custom", state := some "FIRING",
          priority := some "P7", occurred_at := some "2024-01-15T10:30:00.000Z",
          team := some "test-team", identity := some {}, links := some {} }))
      "title: missing required property" = true ∧
    strContains (wrapNorm (valMsg
        { schema_version := some 1, source := some "custom", state := some "FIRING",
          priority := some "P7", occurred_at := some "2024-01-15T10:30:00.000Z",
          team := some "test-team", identity := some {}, links := some {} }))
      "priority: must be one of P0, P1, P2, P3" = true ∧
    (∃ m, normalizedTransform
        { schema_version := some 1, source := some "custom", state := some "FIRING",
          title := some "Test Alert", priority := some "P1",
          occurred_at := some "2024-01-15T10:30:00.000Z", team := some "test-team",
          identity := some {},
          links := some { runbook_url := some "ftp://example.com/runbook" } } =
      .error m) :=
  ⟨(normalizedTransform_aggregate_and_strict.1 _ (by decide)).1,
   (normalizedTransform_aggregate_and_strict.1 _ (by decide)).2 _ (by decide),
   (normalizedTransform_aggregate_and_strict.1 _ (by decide)).2 _ (by decide),
   normalizedTransform_aggregate_and_strict.2 _ (by decide)
     (Or.inl ⟨by decide, by decide⟩)⟩

/-! ## Claim C8 -/

/-- A valid URL validates to itself. -/
theorem validateUrl_eq_self (s v : String) (h : validateUrl s = some v) : v = s := by
  unfold validateUrl at h
  split at h
  · cases h; rfl
  · cases h

/-- A link that is absent, empty, or strictly valid passes `checkLink`
unchanged. -/
theorem checkLink_ok_of (name : String) (o : Option String)
    (h : truthy o = true → (validateUrl (o.getD "")).isSome = true) :
    checkLink name o = .ok o := by
  unfold checkLink
  by_cases ht : truthy o = true
  · rw [if_pos ht]
    obtain ⟨v, hv⟩ := Option.isSome_iff_exists.mp (h ht)
    rw [hv]
    have hvs := validateUrl_eq_self _ _ hv
    cases o with
    | none => simp [truthy] at ht
    | some u => simp at hvs ⊢; exact hvs
  · rw [if_neg ht]

/-- C8: on a schema-valid pre-normalized payload whose present links all
pass the strict URL rule, the transform is the identity up to link
sanitization: it succeeds with the event denoted by the payload, every
non-link field equal to the payload's field and the links equal to the
validated (unchanged) URLs. -/
theorem normalizedTransform_identity (r : RawAlertEvent)
    (h0 : collectErrors r = [])
    (h1 : truthy (linksOf r).runbook_url = true →
      (validateUrl ((linksOf r).runbook_url.getD "")).isSome = true)
    (h2 : truthy (linksOf r).dashboard_url = true →
      (validateUrl ((linksOf r).dashboard_url.getD "")).isSome = true)
    (h3 : truthy (linksOf r).source_url = true →
      (validateUrl ((linksOf r).source_url.getD "")).isSome = true)
    (h4 : truthy (linksOf r).silence_url = true →
      (validateUrl ((linksOf r).silence_url.getD "")).isSome = true) :
    normalizedTransform r = .ok (toAlertEvent r (linksOf r)) ∧
    (toAlertEvent r (linksOf r)).title = r.title.getD "" ∧
    (toAlertEvent r (linksOf r)).source = r.source.getD "" ∧
    (toAlertEvent r (linksOf r)).description = r.description ∧
    (toAlertEvent r (linksOf r)).summary = r.summary ∧
    (toAlertEvent r (linksOf r)).reason = r.reason ∧
    (toAlertEvent r (linksOf r)).occurred_at = r.occurred_at.getD "" ∧
    (toAlertEvent r (linksOf r)).team = r.team.getD "" ∧
    (toAlertEvent r (linksOf r)).identity = r.identity.getD {} ∧
    (toAlertEvent r (linksOf r)).links = linksOf r := by
  refine ⟨?_, rfl, rfl, rfl, rfl, rfl, rfl, rfl, rfl, rfl⟩
  have c1 := checkLink_ok_of "runbook_url" _ h1
  have c2 := checkLink_ok_of "dashboard_url" _ h2
  have c3 := checkLink_ok_of "source_url" _ h3
  have c4 := checkLink_ok_of "silence_url" _ h4
  simp only [normalizedTransform, validate_ok r h0, c1, c2, c3, c4]

/-- Witness for C8 at the test suite's valid normalized alert: the
transform returns it unchanged. -/
theorem normalizedTransform_identity_witness :
    normalizedTransform
        { schema_version := some 1, source := some "datadog", state := some "FIRING",
          title := some "High CPU Usage", description := some "CPU usage is above 90%",
          summary := some "Critical CPU alert", priority := some "P1",
          occurred_at := some "2024-01-15T10:30:00.000Z", team := some "platform-team",
          identity := some { account_id := some "123456789012",
                             region := some "us-west-2",
                             rule_id := some "cpu-high-alert" },
          links := some { runbook_url := some "https://wiki.company.com/runbooks/cpu",
                          dashboard_url := some "https://dashboard.company.com/cpu",
                          source_url := some "https://datadog.com/monitors/12345" } } =
      .ok (toAlertEvent
        { schema_version := some 1, source := some "datadog", state := some "FIRING",
          title := some "High CPU Usage", description := some "CPU usage is above 90%",
          summary := some "Critical CPU alert", priority := some "P1",
          occurred_at := some "2024-01-15T10:30:00.000Z", team := some "platform-team",
          identity := some { account_id := some "123456789012",
                             region := some "us-west-2",
                             rule_id := some "cpu-high-alert" },
          links := some { runbook_url := some "https://wiki.company.com/runbooks/cpu",
                          dashboard_url := some "https://dashboard.company.com/cpu",
                          source_url := some "https://datadog.com/monitors/12345" } }
        (linksOf
        { schema_version := some 1, source := some "datadog", state := some "FIRING",
          title := some "High CPU Usage", description := some "CPU usage is above 90%",
          summary := some "Critical CPU alert", priority := some "P1",
          occurred_at := some "2024-01-15T10:30:00.000Z", team := some "platform-team",
          identity := some { account_id := some "123456789012",
                             region := some "us-west-2",
                             rule_id := some "cpu-high-alert" },
          links := some { runbook_url := some "https://wiki.company.com/runbooks/cpu",
                          dashboard_url := some "https://dashboard.company.com/cpu",
                          source_url := some "https://datadog.com/monitors/12345" } })) :=
  (normalizedTransform_identity _ (by decide) (by decide) (by decide) (by decide)
    (by decide)).1

/-! ## Claim C3 -/

/-- C3 counterexample: with GitHub enabled, a CLOSE action whose tracker
mutation fails (`closeOk = false`) still saves a state record carrying
the existing issue number 42 — so the presence of the issue number in the
saved record does not indicate whether the tracker mutation succeeded,
falsifying C3 as stated at this input. -/
theorem handleRecord_close_failure_counterexample :
    handleRecord
        { enableGithubIssues := true, hasStateManager := true,
          loadedState := some ⟨.OPEN, false, "2025-09-16T12:00:00.000Z", some 42⟩,
          github := { createResult := none, closeOk := false, commentOk := false },
          saveOk := true }
        { success := true, fingerprint := some "fp1", action := some .CLOSE,
          alertEvent := some
            { schema_version := 1, source := "grafana", state := .RESOLVED,
              title := "Test Alert", priority := .P1,
              occurred_at := "2025-09-16T12:05:00.000Z", team := "dev-infra",
              identity := {}, links := {} },
          errKind := none } =
      ([.loadState, .githubClose 42, .saveState (some 42)], false) ∧
    (GithubOracle.closeOk
        { createResult := none, closeOk := false, commentOk := false }) = false := by
  exact ⟨rfl, rfl⟩

/-- C3 amended: for every successfully decided record (fingerprint and
action produced, alert event present, state manager configured) the
handler's trace ends with the state-store write, every tracker effect
precedes it, and the write happens for every GitHub oracle outcome —
a tracker failure never prevents it; the saved issue number reflects
tracker success (present iff the create succeeded) for CREATE actions
only, while CLOSE and COMMENT retain the prior issue number regardless
of mutation success. -/
theorem handleRecord_tracker_before_save (env : HandlerEnv) (res : ProcOutcome)
    (hs : res.success = true) (hfp : res.fingerprint.isSome = true)
    (hact : res.action.isSome = true) (hev : res.alertEvent.isSome = true)
    (hsm : env.hasStateManager = true) :
    handleRecord env res =
      ((githubStep env res).1 ++ [Effect.saveState (githubStep env res).2.2],
        !env.saveOk) ∧
    (∀ e ∈ (githubStep env res).1, e.isSave = false) ∧
    (env.enableGithubIssues = true → res.action = some .CREATE →
      (githubStep env res).2.2 = env.github.createResult) := by
  refine ⟨?_, githubStep_no_save env res, ?_⟩
  · obtain ⟨f, hf⟩ := Option.isSome_iff_exists.mp hfp
    obtain ⟨a, ha⟩ := Option.isSome_iff_exists.mp hact
    unfold handleRecord
    simp [hs, hf, ha, hsm, hev]
  · intro hen hcr
    unfold githubStep
    simp [hen, hcr, hev]

/-- Witness for C3 at a concrete CREATE record whose tracker create
fails; the state write still happens, after the tracker attempt, with no
issue number recorded. -/
theorem handleRecord_tracker_before_save_witness :
    handleRecord
        { enableGithubIssues := true, hasStateManager := true,
          loadedState := none,
          github := { createResult := none, closeOk := false, commentOk := false },
          saveOk := true }
        { success := true, fingerprint := some "fp2", action := some .CREATE,
          alertEvent := some
            { schema_version := 1, source := "grafana", state := .FIRING,
              title := "Test Alert", priority := .P1,
              occurred_at := "2025-09-16T12:00:00.000Z", team := "dev-infra",
              identity := {}, links := {} },
          errKind := none } =
      ((githubStep
          { enableGithubIssues := true, hasStateManager := true,
            loadedState := none,
            github := { createResult := none, closeOk := false, commentOk := false },
            saveOk := true }
          { success := true, fingerprint := some "fp2", action := some .CREATE,
            alertEvent := some
              { schema_version := 1, source := "grafana", state := .FIRING,
                title := "Test Alert", priority := .P1,
                occurred_at := "2025-09-16T12:00:00.000Z", team := "dev-infra",
                identity := {}, links := {} },
            errKind := none }).1 ++
        [Effect.saveState none], false) := by
  have h := handleRecord_tracker_before_save
    { enableGithubIssues := true, hasStateManager := true,
      loadedState := none,
      github := { createResult := none, closeOk := false, commentOk := false },
      saveOk := true }
    { success := true, fingerprint := some "fp2", action := some .CREATE,
      alertEvent := some
        { schema_version := 1, source := "grafana", state := .FIRING,
          title := "Test Alert", priority := .P1,
          occurred_at := "2025-09-16T12:00:00.000Z", team := "dev-infra",
          identity := {}, links := {} },
      errKind := none }
    rfl rfl rfl rfl rfl
  simpa using h.1

/-! ## Claim C4 -/

/-- C4 counterexample: a record whose processing failed with a
ValidationError is still reported in `batchItemFailures` (the `true`
component), i.e. it is redelivered — the handler treats validation and
transient failures identically, falsifying the claimed
"in batchItemFailures iff transient". -/
theorem handleRecord_validation_retried_counterexample :
    handleRecord { enableGithubIssues := false, hasStateManager := true }
        { success := false, fingerprint := none, action := none,
          alertEvent := none, errKind := some .validation } =
      ([], true) := rfl

/-- C4 amended: every record whose processing fails is reported in
`batchItemFailures` and hence redelivered, whatever the error kind —
validation failures included — and the handler's behaviour is entirely
independent of the error classification carried by the result. -/
theorem handleRecord_retries_all_failures :
    (∀ (env : HandlerEnv) (res : ProcOutcome), res.success = false →
      (handleRecord env res).2 = true) ∧
    (∀ (env : HandlerEnv) (res : ProcOutcome) (k : Option ErrKind),
      handleRecord env { res with errKind := k } = handleRecord env res) := by
  constructor
  · intro env res hfail
    unfold handleRecord
    simp [hfail]
  · intro env res k
    rfl

/-- Witness for C4 at concrete failed records of both error kinds: both
are redelivered. -/
theorem handleRecord_retries_all_failures_witness :
    (handleRecord { enableGithubIssues := true, hasStateManager := true }
        { success := false, errKind := some .transientFault }).2 = true ∧
    (handleRecord { enableGithubIssues := true, hasStateManager := false }
        { success := false, errKind := some .validation }).2 = true :=
  ⟨handleRecord_retries_all_failures.1 _ _ rfl,
   handleRecord_retries_all_failures.1 _ _ rfl⟩

end Alerting
